import Mathlib

/-!
Verification of the libsqlite3-sys build script (`build.rs`).

The development shallowly embeds the build script's pure decision logic:
the configuration model (feature flags and derived names), the library
resolver (`build_linked::find_sqlite` and
`build_loadable_extension::find_sqlite`), the top-level mode selection
(`main`), the loadable-extension trampoline generator
(`generate_wrapper` and the per-field loop of
`bindings::write_to_out_dir`), the deterministic-flag compatibility shim,
the rustfmt output phase, the bindgen integer-typing callback
(`SqliteTypeChooser::int_macro`), and the prebuilt-bindings fallback
(the non-`buildtime_bindgen` `bindings::write_to_out_dir`).

Side effects are made explicit: emitted cargo directives become a list of
strings, the environment and the pkg-config / vcpkg probers become
explicit inputs, and fatal panics become `Except.error`.
-/

/-- Rust `str::contains` (contiguous substring occurrence), on `List Char`. -/
def listContainsSub (pat : List Char) : List Char → Bool
  | [] => pat.isEmpty
  | c :: rest => pat.isPrefixOf (c :: rest) || listContainsSub pat rest

/-- Rust `str::contains` on `String`. -/
def strContainsSubstr (s pat : String) : Bool :=
  listContainsSub pat.data s.data

/-- Rust `str::starts_with` on `String`. -/
def strStartsWith (s pat : String) : Bool :=
  pat.data.isPrefixOf s.data

/-- Build-time feature flags and target attributes consulted by `build.rs`.
`sqlcipher`, `bundled`, `loadable_extension`, `buildtime_bindgen` are cargo
features; `targetWindows` is `cfg!(target_os = "windows")` and `vcpkgMsvc`
is `cfg!(all(feature = "vcpkg", target_env = "msvc"))`. -/
structure Config where
  sqlcipher : Bool
  bundled : Bool
  loadable_ext : Bool
  buildtime_bindgen : Bool
  targetWindows : Bool
  vcpkgMsvc : Bool
  deriving DecidableEq

/-- `env_prefix()` from build.rs. -/
def env_prefix (c : Config) : String :=
  if c.sqlcipher then "SQLCIPHER" else "SQLITE3"

/-- `header_file()` from build.rs. -/
def header_file (c : Config) : String :=
  if c.loadable_ext then "sqlite3ext.h" else "sqlite3.h"

/-- `wrapper_file()` from build.rs. -/
def wrapper_file (c : Config) : String :=
  if c.loadable_ext then "wrapper-ext.h" else "wrapper.h"

/-- `build_linked::link_lib()` from build.rs. -/
def link_lib (c : Config) : String :=
  if c.sqlcipher then "sqlcipher" else "sqlite3"

/-- The `HeaderLocation` enum from build.rs (`Wrapper` is the wrapper-stub
header location). -/
inductive HeaderLocation where
  | FromEnvironment
  | Wrapper
  | FromPath (path : String)
  deriving DecidableEq

/-- The environment variables read by `find_sqlite`: `<PREFIX>_LIB_DIR`
and `<PREFIX>_STATIC` (`none` means the variable is unset). -/
structure ResolveEnv where
  libDir : Option String
  staticVar : Option String
  deriving DecidableEq

/-- `build_linked::find_link_mode()` from build.rs: any value of
`<PREFIX>_STATIC` other than `"0"` forces static linking. -/
def find_link_mode (env : ResolveEnv) : String :=
  match env.staticVar with
  | some v => if v ≠ "0" then "static" else "dylib"
  | none => "dylib"

/-- Outcome of a `pkg_config` probe: `ok` carries the reported
`include_paths`, `err` is a probe failure. -/
inductive ProbeResult where
  | ok (includePaths : List String)
  | err
  deriving DecidableEq

/-- The unconditional `cargo:rerun-if-env-changed` directives printed at
the top of both `find_sqlite` functions. -/
def rerunDirectives (c : Config) : List String :=
  ["cargo:rerun-if-env-changed=" ++ env_prefix c ++ "_INCLUDE_DIR",
   "cargo:rerun-if-env-changed=" ++ env_prefix c ++ "_LIB_DIR",
   "cargo:rerun-if-env-changed=" ++ env_prefix c ++ "_STATIC"]
  ++ (if c.targetWindows then ["cargo:rerun-if-env-changed=PATH"] else [])
  ++ (if c.vcpkgMsvc then ["cargo:rerun-if-env-changed=VCPKGRS_DYNAMIC"] else [])

/-- `try_vcpkg()` from build.rs: only on the msvc/vcpkg target does a
successful vcpkg probe whose last include path exists yield a header
location. `vcpkgRes` is the probe outcome (`none` is `Err`). -/
def try_vcpkg (c : Config) (vcpkgRes : Option (List String)) : Option HeaderLocation :=
  if c.vcpkgMsvc then
    match vcpkgRes with
    | some includePaths =>
      match includePaths.getLast? with
      | some header => some (HeaderLocation.FromPath (header ++ "/" ++ header_file c))
      | none => none
    | none => none
  else none

/-- `build_linked::find_sqlite()` from build.rs: returns the header
location and the list of cargo directives the function itself prints.
`dirProbe` is the pkg-config probe scoped to `<PREFIX>_LIB_DIR/pkgconfig`,
`vcpkgRes` the vcpkg probe, `sysProbe` the general pkg-config probe. -/
def build_linked_find_sqlite (c : Config) (env : ResolveEnv) (dirProbe : ProbeResult)
    (vcpkgRes : Option (List String)) (sysProbe : ProbeResult) :
    HeaderLocation × List String :=
  let lib := link_lib c
  let rerun := rerunDirectives c
  match env.libDir with
  | some dir =>
    match dirProbe with
    | ProbeResult.ok _ => (HeaderLocation.FromEnvironment, rerun)
    | ProbeResult.err =>
      (HeaderLocation.FromEnvironment,
       rerun ++ ["cargo:rustc-link-lib=" ++ find_link_mode env ++ "=" ++ lib,
                 "cargo:rustc-link-search=" ++ dir])
  | none =>
    match try_vcpkg c vcpkgRes with
    | some header => (header, rerun)
    | none =>
      match sysProbe with
      | ProbeResult.ok includePaths =>
        match includePaths.getLast? with
        | some header =>
          (HeaderLocation.FromPath (header ++ "/" ++ header_file c), rerun)
        | none => (HeaderLocation.Wrapper, rerun)
      | ProbeResult.err =>
        (HeaderLocation.Wrapper,
         rerun ++ ["cargo:rustc-link-lib=" ++ find_link_mode env ++ "=" ++ lib])

/-- `build_loadable_extension::find_sqlite()` from build.rs. When
`<PREFIX>_LIB_DIR` is set it returns `FromEnvironment` without probing and
without printing any link directive; when every probe fails it returns
`Wrapper`, again with no link directive. -/
def build_loadable_find_sqlite (c : Config) (env : ResolveEnv)
    (vcpkgRes : Option (List String)) (sysProbe : ProbeResult) :
    HeaderLocation × List String :=
  let rerun := rerunDirectives c
  match env.libDir with
  | some _ => (HeaderLocation.FromEnvironment, rerun)
  | none =>
    match try_vcpkg c vcpkgRes with
    | some header => (header, rerun)
    | none =>
      match sysProbe with
      | ProbeResult.ok includePaths =>
        match includePaths.getLast? with
        | some header =>
          (HeaderLocation.FromPath (header ++ "/" ++ header_file c), rerun)
        | none => (HeaderLocation.Wrapper, rerun)
      | ProbeResult.err => (HeaderLocation.Wrapper, rerun)

/-- Which build module `main` dispatches to. -/
inductive BuildMode where
  | linked
  | bundledBuild
  | loadableExt
  deriving DecidableEq

/-- The `cargo:warning` line printed by `main` when `bundled` and
`sqlcipher` are both enabled. -/
def sqlcipherWarning : String :=
  "cargo:warning=Builds with bundled SQLCipher are not supported. Searching for SQLCipher to link against. This can lead to issues if your version of SQLCipher is not up to date!"

/-- The branching of `main()` in build.rs: which build module runs, the
warnings printed on the way, or the fatal configuration error. -/
def mainSelect (c : Config) : Except String (BuildMode × List String) :=
  if c.sqlcipher then
    Except.ok (BuildMode.linked, if c.bundled then [sqlcipherWarning] else [])
  else if c.bundled then
    if c.loadable_ext then
      Except.error "Building a loadable extension bundled is not supported"
    else
      Except.ok (BuildMode.bundledBuild, [])
  else if c.loadable_ext then
    Except.ok (BuildMode.loadableExt, [])
  else
    Except.ok (BuildMode.linked, [])

/-- One argument of a dispatch-table field's bare-function signature
(`syn::BareFnArg`): an optional name and a rendered Rust type. -/
structure BareFnArg where
  name : Option String
  ty : String
  deriving DecidableEq

/-- One field of the `sqlite3_api_routines` struct, at the level the
trampoline generator consumes it: the field identifier (absent for an
anonymous field), the bare-function inputs and output extracted by
`bare_fn_from_type_path`, and whether the signature is variadic. -/
structure FieldDescriptor where
  ident : Option String
  inputs : List BareFnArg
  output : String
  variadic : Bool
  deriving DecidableEq

/-- The `var_arg_types` table of `generate_wrapper`: the registered
variadic specialization for `sqlite3_db_config` is `[None, Some(&mut
i32)]` (where `None` keeps the cloned last parameter's type); every other
variadic function falls back to `[None]`. -/
def varArgTypes (apiFnName : String) : List (Option String) :=
  if apiFnName = "sqlite3_db_config" then [none, some "&mut i32"] else [none]

/-- The variadic-replacement loop of `generate_wrapper`: for each entry of
`var_arg_types` (with its enumeration index), clone the current last
input, rename it `vararg{index+1}`, override its type when the entry is
`Some`, and push it. Indexing an empty input list is the corresponding
Rust panic. -/
def addVarargs : List BareFnArg → Nat → List (Option String) → Except String (List BareFnArg)
  | inputs, _, [] => Except.ok inputs
  | inputs, index, t :: rest =>
    match inputs.getLast? with
    | none => Except.error "index out of bounds"
    | some lastInput =>
      addVarargs
        (inputs ++ [{ name := some ("vararg" ++ toString (index + 1)),
                      ty := match t with | some ty => ty | none => lastInput.ty }])
        (index + 1) rest

/-- The input-identifier collection of `generate_wrapper`: every input
must be named, otherwise the generator aborts (`Input has no name`). -/
def collectIdents : List BareFnArg → Except String (List String)
  | [] => Except.ok []
  | a :: rest =>
    match a.name with
    | none => Except.error "Input has no name"
    | some n =>
      match collectIdents rest with
      | Except.error e => Except.error e
      | Except.ok ns => Except.ok (n :: ns)

/-- The `expect` message attached to a null function pointer inside the
dispatch table: the rendering of
`stringify!("sqlite3_api contains null pointer for ", #field_name, " function")`
in the generated wrapper. It always embeds the field name. -/
def nullFieldMessage (fieldName : String) : String :=
  "\"sqlite3_api contains null pointer for \" , \"" ++ fieldName ++ "\" , \" function\""

/-- A generated trampoline (`WrapperFunction`): its external name, its
signature, the argument identifiers forwarded to the indirect call, the
dispatch-table field it goes through, and the two failure messages of its
body. -/
structure Wrapper where
  apiFnName : String
  inputs : List BareFnArg
  output : String
  callArgs : List String
  dispatchField : String
  nullTableMsg : String
  nullFieldMsg : String
  deriving DecidableEq

/-- Final assembly step of `generate_wrapper`: collect the input
identifiers for the forwarded call (fatal when an input is unnamed) and
build the wrapper record, with the fixed null-table panic message and the
field-naming null-field `expect` message. -/
def assembleWrapper (fieldIdent : String) (apiFnName : String) (output : String)
    (apiFnInputs : List BareFnArg) : Except String Wrapper :=
  match collectIdents apiFnInputs with
  | Except.error e => Except.error e
  | Except.ok idents =>
    Except.ok
      { apiFnName := apiFnName
        inputs := apiFnInputs
        output := output
        callArgs := idents
        dispatchField := fieldIdent
        nullTableMsg := "sqlite3_api is null"
        nullFieldMsg := nullFieldMessage fieldIdent }

/-- `generate_wrapper` from build.rs, at the `FieldDescriptor` level: add
the variadic replacement parameters when the field is variadic, collect
the input identifiers for the forwarded call, and assemble the wrapper. -/
def generate_wrapper (fieldIdent : String) (f : FieldDescriptor) (apiFnName : String) :
    Except String Wrapper :=
  match (if f.variadic then addVarargs f.inputs 0 (varArgTypes apiFnName)
         else Except.ok f.inputs) with
  | Except.error e => Except.error e
  | Except.ok apiFnInputs => assembleWrapper fieldIdent apiFnName f.output apiFnInputs

/-- The per-field loop of `bindings::write_to_out_dir` in
loadable-extension mode: every field of the parsed dispatch-table struct,
in declaration order, yields one wrapper named `sqlite3_` ++ field name;
an anonymous field is fatal. -/
def emitTrampolines : List FieldDescriptor → Except String (List Wrapper)
  | [] => Except.ok []
  | f :: rest =>
    match f.ident with
    | none => Except.error "Unexpected anonymous field in sqlite"
    | some ident =>
      match generate_wrapper ident f ("sqlite3_" ++ ident) with
      | Except.error e => Except.error e
      | Except.ok w =>
        match emitTrampolines rest with
        | Except.error e => Except.error e
        | Except.ok ws => Except.ok (w :: ws)

/-- Runtime behavior of a generated wrapper's body: check the global
`sqlite3_api` table pointer (fatal with the fixed message when null), then
unwrap the field's function pointer (fatal with the field-naming `expect`
message when null), then perform the indirect call, forwarding the
collected argument identifiers. -/
def runWrapper (w : Wrapper) (apiIsNull : Bool) (fieldFnIsNull : Bool) :
    Except String (String × List String) :=
  if apiIsNull then Except.error w.nullTableMsg
  else if fieldFnIsNull then Except.error w.nullFieldMsg
  else Except.ok (w.dispatchField, w.callArgs)

/-- The compatibility-shim text appended for `SQLITE_DETERMINISTIC`. -/
def deterministicShim : String :=
  "\npub const SQLITE_DETERMINISTIC: i32 = 2048;\n"

/-- The shim step of `bindings::write_to_out_dir`: append the
`SQLITE_DETERMINISTIC` constant exactly when the generated output does not
already contain it. -/
def appendDeterministic (output : String) : String :=
  if strContainsSubstr output "pub const SQLITE_DETERMINISTIC" then output
  else output ++ deterministicShim

/-- One run of the output phase of `bindings::write_to_out_dir`: the
previous contents of the output file, the bytes rustfmt wrote to its
stdout, and rustfmt's exit code (`none` models exit by signal). -/
structure FormatRun where
  priorFile : String
  fmtStdout : String
  exitCode : Option Int
  deriving DecidableEq

/-- The output phase of `bindings::write_to_out_dir`: the file is opened
with `truncate` and rustfmt's stdout is streamed into it before the exit
status is inspected, so the final file contents are always exactly
rustfmt's stdout; a non-zero status is then a fatal error classified as
parse error (2), could-not-format (3), or internal error. -/
def formatAndWrite (r : FormatRun) : Except String Unit × String :=
  let fileContents := r.fmtStdout
  match r.exitCode with
  | some code =>
    if code = 0 then (Except.ok (), fileContents)
    else if code = 2 then (Except.error "rustfmt parsing error", fileContents)
    else if code = 3 then (Except.error "rustfmt could not format some lines.", fileContents)
    else (Except.error "Internal rustfmt error", fileContents)
  | none => (Except.error "Internal rustfmt error", fileContents)

/-- The only `IntKind` the build script's callback ever selects. -/
inductive IntKind where
  | I32
  deriving DecidableEq

/-- `SqliteTypeChooser::int_macro` from build.rs: a numeric preprocessor
constant is typed `i32` exactly when its value is between `i32::MIN` and
`i32::MAX`; otherwise no type is chosen. -/
def int_macro (value : Int) : Option IntKind :=
  if -2147483648 ≤ value ∧ value ≤ 2147483647 then some IntKind.I32 else none

/-- The cargo features selecting a minimum supported SQLite version, plus
loadable-extension mode, as consumed by the non-`buildtime_bindgen`
`bindings` module. -/
structure BindgenConfig where
  min_3_6_23 : Bool
  min_3_7_7 : Bool
  min_3_7_16 : Bool
  min_3_13_0 : Bool
  min_3_20_0 : Bool
  min_3_26_0 : Bool
  loadable_ext : Bool
  deriving DecidableEq

/-- `PREBUILT_BINDGEN_PATHS` from build.rs: the base 3.6.8 entry plus one
entry per enabled `min_sqlite_version_*` feature, in ascending order. -/
def PREBUILT_BINDGEN_PATHS (c : BindgenConfig) : List String :=
  ["bindgen-bindings/bindgen_3.6.8"]
  ++ (if c.min_3_6_23 then ["bindgen-bindings/bindgen_3.6.23"] else [])
  ++ (if c.min_3_7_7 then ["bindgen-bindings/bindgen_3.7.7"] else [])
  ++ (if c.min_3_7_16 then ["bindgen-bindings/bindgen_3.7.16"] else [])
  ++ (if c.min_3_13_0 then ["bindgen-bindings/bindgen_3.13.0"] else [])
  ++ (if c.min_3_20_0 then ["bindgen-bindings/bindgen_3.20.0"] else [])
  ++ (if c.min_3_26_0 then ["bindgen-bindings/bindgen_3.26.0"] else [])

/-- `bindings::prebuilt_bindgen_ext()` from build.rs. -/
def prebuilt_bindgen_ext (c : BindgenConfig) : String :=
  if c.loadable_ext then "-ext" else ""

/-- The source path copied by the non-`buildtime_bindgen`
`bindings::write_to_out_dir`: the last entry of `PREBUILT_BINDGEN_PATHS`
with the extension suffix and `.rs`; the resolved header location
parameter is ignored (`_header`). -/
def prebuilt_write_src (c : BindgenConfig) (_header : HeaderLocation) : String :=
  (PREBUILT_BINDGEN_PATHS c).getD ((PREBUILT_BINDGEN_PATHS c).length - 1) ""
  ++ prebuilt_bindgen_ext c ++ ".rs"

/-! Helper lemmas about the string and list operations used above. -/

theorem listIsPrefixOf_append (l t : List Char) : l.isPrefixOf (l ++ t) = true := by
  induction l with
  | nil => simp [List.isPrefixOf]
  | cons a as ih => simp [List.isPrefixOf, ih]

theorem listContainsSub_append_middle (pre pat post : List Char) :
    listContainsSub pat (pre ++ pat ++ post) = true := by
  induction pre with
  | nil =>
    rw [List.nil_append]
    cases pat with
    | nil =>
      cases post with
      | nil => rfl
      | cons c cs => simp [listContainsSub, List.isPrefixOf]
    | cons p ps =>
      have hp := listIsPrefixOf_append (p :: ps) post
      rw [List.cons_append] at hp
      rw [List.cons_append, listContainsSub, hp]
      simp
  | cons c pre' ih =>
    rw [List.cons_append, List.cons_append, listContainsSub, ih]
    simp

theorem strContainsSubstr_append_middle (a s b : String) :
    strContainsSubstr (a ++ s ++ b) s = true := by
  unfold strContainsSubstr
  rw [String.data_append, String.data_append]
  exact listContainsSub_append_middle a.data s.data b.data

theorem nullFieldMessage_contains (n : String) :
    strContainsSubstr (nullFieldMessage n) n = true := by
  unfold nullFieldMessage
  exact strContainsSubstr_append_middle _ n _

theorem string_append_left_cancel {s a b : String} (h : s ++ a = s ++ b) : a = b := by
  apply String.ext
  have hd := congrArg String.data h
  rw [String.data_append, String.data_append] at hd
  exact List.append_cancel_left hd

theorem collectIdents_ok (l : List BareFnArg) (ids : List String)
    (h : collectIdents l = Except.ok ids) :
    ids = l.map (fun a => a.name.getD "") := by
  induction l generalizing ids with
  | nil =>
    rw [collectIdents] at h
    injection h with h'
    simp [← h']
  | cons a rest ih =>
    rw [collectIdents] at h
    cases hn : a.name with
    | none => rw [hn] at h; exact Except.noConfusion h
    | some n =>
      rw [hn] at h
      cases hr : collectIdents rest with
      | error e => rw [hr] at h; exact Except.noConfusion h
      | ok ns =>
        rw [hr] at h
        injection h with h'
        subst h'
        simp [hn, ih ns hr]

theorem assembleWrapper_ok (fieldIdent apiFnName output : String)
    (apiFnInputs : List BareFnArg) (w : Wrapper)
    (h : assembleWrapper fieldIdent apiFnName output apiFnInputs = Except.ok w) :
    w = { apiFnName := apiFnName
          inputs := apiFnInputs
          output := output
          callArgs := apiFnInputs.map (fun a => a.name.getD "")
          dispatchField := fieldIdent
          nullTableMsg := "sqlite3_api is null"
          nullFieldMsg := nullFieldMessage fieldIdent } := by
  rw [assembleWrapper] at h
  cases hc : collectIdents apiFnInputs with
  | error e => rw [hc] at h; exact Except.noConfusion h
  | ok ids =>
    rw [hc] at h
    injection h with h'
    rw [← h']
    have := collectIdents_ok apiFnInputs ids hc
    simp [this]

theorem generate_wrapper_ok_fields (fieldIdent : String) (f : FieldDescriptor)
    (apiFnName : String) (w : Wrapper)
    (h : generate_wrapper fieldIdent f apiFnName = Except.ok w) :
    w.apiFnName = apiFnName ∧ w.dispatchField = fieldIdent ∧
    w.nullTableMsg = "sqlite3_api is null" ∧
    w.nullFieldMsg = nullFieldMessage fieldIdent := by
  rw [generate_wrapper] at h
  cases hs : (if f.variadic then addVarargs f.inputs 0 (varArgTypes apiFnName)
              else Except.ok f.inputs) with
  | error e => rw [hs] at h; exact Except.noConfusion h
  | ok apiFnInputs =>
    rw [hs] at h
    have := assembleWrapper_ok fieldIdent apiFnName f.output apiFnInputs w h
    subst this
    exact ⟨rfl, rfl, rfl, rfl⟩

theorem emitTrampolines_ok_map (fields : List FieldDescriptor) (ws : List Wrapper)
    (h : emitTrampolines fields = Except.ok ws) :
    ws.map (fun w => w.apiFnName) =
      fields.map (fun f => "sqlite3_" ++ f.ident.getD "") := by
  induction fields generalizing ws with
  | nil =>
    rw [emitTrampolines] at h
    injection h with h'
    simp [← h']
  | cons f rest ih =>
    rw [emitTrampolines] at h
    split at h
    · exact Except.noConfusion h
    · rename_i ident hid
      split at h
      · exact Except.noConfusion h
      · rename_i w hgw
        split at h
        · exact Except.noConfusion h
        · rename_i ws' hr
          injection h with h'
          subst h'
          have hname := (generate_wrapper_ok_fields ident f _ w hgw).1
          simp [hname, hid, ih ws' hr]

/-! Concrete dispatch-table fields used as evaluation witnesses. -/

def exCloseField : FieldDescriptor :=
  { ident := some "close"
    inputs := [{ name := some "db", ty := "*mut sqlite3" }]
    output := "::std::os::raw::c_int"
    variadic := false }

def exCloseWrapper : Wrapper :=
  { apiFnName := "sqlite3_close"
    inputs := [{ name := some "db", ty := "*mut sqlite3" }]
    output := "::std::os::raw::c_int"
    callArgs := ["db"]
    dispatchField := "close"
    nullTableMsg := "sqlite3_api is null"
    nullFieldMsg := nullFieldMessage "close" }

def exFields : List FieldDescriptor :=
  [{ ident := some "aggregate_context"
     inputs := [{ name := some "arg1", ty := "*mut sqlite3_context" },
                { name := some "nBytes", ty := "::std::os::raw::c_int" }]
     output := "*mut ::std::os::raw::c_void"
     variadic := false },
   { ident := some "bind_blob"
     inputs := [{ name := some "arg1", ty := "*mut sqlite3_stmt" },
                { name := some "arg2", ty := "::std::os::raw::c_int" },
                { name := some "arg3", ty := "*const ::std::os::raw::c_void" },
                { name := some "n", ty := "::std::os::raw::c_int" },
                { name := some "arg4", ty := "::std::os::raw::c_void" }]
     output := "::std::os::raw::c_int"
     variadic := false }]

def exWrappers : List Wrapper :=
  [{ apiFnName := "sqlite3_aggregate_context"
     inputs := [{ name := some "arg1", ty := "*mut sqlite3_context" },
                { name := some "nBytes", ty := "::std::os::raw::c_int" }]
     output := "*mut ::std::os::raw::c_void"
     callArgs := ["arg1", "nBytes"]
     dispatchField := "aggregate_context"
     nullTableMsg := "sqlite3_api is null"
     nullFieldMsg := nullFieldMessage "aggregate_context" },
   { apiFnName := "sqlite3_bind_blob"
     inputs := [{ name := some "arg1", ty := "*mut sqlite3_stmt" },
                { name := some "arg2", ty := "::std::os::raw::c_int" },
                { name := some "arg3", ty := "*const ::std::os::raw::c_void" },
                { name := some "n", ty := "::std::os::raw::c_int" },
                { name := some "arg4", ty := "::std::os::raw::c_void" }]
     output := "::std::os::raw::c_int"
     callArgs := ["arg1", "arg2", "arg3", "n", "arg4"]
     dispatchField := "bind_blob"
     nullTableMsg := "sqlite3_api is null"
     nullFieldMsg := nullFieldMessage "bind_blob" }]

/-- C1: for every dispatch-table descriptor whose generation succeeds, the
trampoline generator emits exactly one wrapper per field, in field order,
each named by prefixing `sqlite3_` to the field name, and (for pairwise
distinct field names) with no duplicate wrapper names. -/
theorem trampoline_one_wrapper_per_field (fields : List FieldDescriptor)
    (ws : List Wrapper)
    (h : emitTrampolines fields = Except.ok ws)
    (hnd : (fields.map (fun f => f.ident.getD "")).Nodup) :
    ws.length = fields.length
    ∧ ws.map (fun w => w.apiFnName) =
        fields.map (fun f => "sqlite3_" ++ f.ident.getD "")
    ∧ (ws.map (fun w => w.apiFnName)).Nodup := by
  have hmap := emitTrampolines_ok_map fields ws h
  refine ⟨?_, hmap, ?_⟩
  · have hlen := congrArg List.length hmap
    simpa using hlen
  · rw [hmap, show fields.map (fun f => "sqlite3_" ++ f.ident.getD "")
        = (fields.map (fun f => f.ident.getD "")).map (fun n => "sqlite3_" ++ n) by
          rw [List.map_map]; rfl]
    exact hnd.map (fun a b hab => string_append_left_cancel hab)

/-- C1 witness: evaluation on a two-field dispatch table. -/
theorem trampoline_one_wrapper_per_field_witness :
    exWrappers.length = exFields.length
    ∧ exWrappers.map (fun w => w.apiFnName) =
        exFields.map (fun f => "sqlite3_" ++ f.ident.getD "")
    ∧ (exWrappers.map (fun w => w.apiFnName)).Nodup :=
  trampoline_one_wrapper_per_field exFields exWrappers rfl (by decide)

/-- C2 counterexample: the wrapper generated for the `close` field, when
invoked while the dispatch-table pointer `sqlite3_api` is null, aborts
with the fixed message `sqlite3_api is null`, which does not name (does
not even contain) the field `close` — contradicting the claim that the
null-table abort message names the specific field. -/
theorem null_table_message_counterexample :
    generate_wrapper "close" exCloseField "sqlite3_close" = Except.ok exCloseWrapper
    ∧ runWrapper exCloseWrapper true false = Except.error "sqlite3_api is null"
    ∧ strContainsSubstr "sqlite3_api is null" "close" = false :=
  ⟨rfl, rfl, by decide⟩

/-- C2 (amended): every generated wrapper, invoked while the
dispatch-table pointer is null, aborts fatally — but with the fixed
message `sqlite3_api is null`, which does not name the field; the message
that names the specific field is the one used when the table is non-null
and the field's own function pointer inside it is null. -/
theorem wrapper_null_dispatch_msgs (fieldIdent : String) (f : FieldDescriptor)
    (apiFnName : String) (w : Wrapper)
    (h : generate_wrapper fieldIdent f apiFnName = Except.ok w) :
    (∀ b : Bool, runWrapper w true b = Except.error "sqlite3_api is null")
    ∧ runWrapper w false true = Except.error (nullFieldMessage fieldIdent)
    ∧ strContainsSubstr (nullFieldMessage fieldIdent) fieldIdent = true := by
  obtain ⟨_, _, h3, h4⟩ := generate_wrapper_ok_fields fieldIdent f apiFnName w h
  refine ⟨?_, ?_, nullFieldMessage_contains fieldIdent⟩
  · intro b
    simp [runWrapper, h3]
  · simp [runWrapper, h4]

/-- C2 witness: the amended statement evaluated on the `close` wrapper. -/
theorem wrapper_null_dispatch_msgs_witness :
    runWrapper exCloseWrapper true false = Except.error "sqlite3_api is null"
    ∧ runWrapper exCloseWrapper false true = Except.error (nullFieldMessage "close")
    ∧ strContainsSubstr (nullFieldMessage "close") "close" = true := by
  have h := wrapper_null_dispatch_msgs "close" exCloseField "sqlite3_close" exCloseWrapper rfl
  exact ⟨h.1 false, h.2.1, h.2.2⟩

/-! C3: the rustfmt output phase. -/

def exFormatFailRun : FormatRun :=
  { priorFile := "previously generated valid bindings"
    fmtStdout := "partially formatted text"
    exitCode := some 3 }

def exFormatOkRun : FormatRun :=
  { priorFile := "previously generated valid bindings"
    fmtStdout := "formatted bindings"
    exitCode := some 0 }

/-- C3 counterexample: when rustfmt exits with status 3 (could not format
some lines) after emitting text, the build aborts but the output file is
left holding exactly that emitted text — nonempty content that is neither
empty nor the prior build's file, so the write is not all-or-nothing. -/
theorem format_failure_file_counterexample :
    (formatAndWrite exFormatFailRun).1 =
      Except.error "rustfmt could not format some lines."
    ∧ (formatAndWrite exFormatFailRun).2 = "partially formatted text"
    ∧ (formatAndWrite exFormatFailRun).2 ≠ ""
    ∧ (formatAndWrite exFormatFailRun).2 ≠ exFormatFailRun.priorFile :=
  ⟨rfl, rfl, by decide, by decide⟩

/-- C3 (amended): on any failing rustfmt exit status the build aborts, and
the output file never retains the prior build's content (it is truncated
at open); but its final contents are always exactly whatever rustfmt wrote
to stdout before the status was checked — possibly partial content. On
exit status 0 that same content is the formatted text, written verbatim. -/
theorem formatAndWrite_behavior (r : FormatRun) :
    (r.exitCode = some 0 → (formatAndWrite r).1 = Except.ok ())
    ∧ (r.exitCode ≠ some 0 → (formatAndWrite r).1 ≠ Except.ok ())
    ∧ (formatAndWrite r).2 = r.fmtStdout := by
  refine ⟨?_, ?_, ?_⟩
  · intro h
    simp [formatAndWrite, h]
  · intro h
    rcases hc : r.exitCode with _ | code
    · simp [formatAndWrite, hc]
    · have hcode : ¬ code = 0 := fun h0 => h (by rw [hc, h0])
      by_cases h2 : code = 2 <;> by_cases h3 : code = 3 <;>
        simp [formatAndWrite, hc, hcode, h2, h3]
  · rcases hc : r.exitCode with _ | code
    · simp [formatAndWrite, hc]
    · by_cases h0 : code = 0 <;> by_cases h2 : code = 2 <;> by_cases h3 : code = 3 <;>
        simp [formatAndWrite, hc, h0, h2, h3]

/-- C3 witness: the amended statement evaluated on a successful run and
the file-content equation on the failing run. -/
theorem formatAndWrite_behavior_witness :
    (formatAndWrite exFormatOkRun).1 = Except.ok ()
    ∧ (formatAndWrite exFormatOkRun).2 = exFormatOkRun.fmtStdout
    ∧ (formatAndWrite exFormatFailRun).1 ≠ Except.ok () := by
  refine ⟨(formatAndWrite_behavior exFormatOkRun).1 rfl,
          (formatAndWrite_behavior exFormatOkRun).2.2,
          (formatAndWrite_behavior exFormatFailRun).2.1 (by decide)⟩

/-! C4: the pre-flight configuration checks of `main`. -/

def exBundledCipherCfg : Config :=
  { sqlcipher := true, bundled := true, loadable_ext := false
    buildtime_bindgen := false, targetWindows := false, vcpkgMsvc := false }

def exBundledLoadableCfg : Config :=
  { sqlcipher := false, bundled := true, loadable_ext := true
    buildtime_bindgen := false, targetWindows := false, vcpkgMsvc := false }

/-- C4 counterexample: with `bundled` and `sqlcipher` both enabled, `main`
does not abort: it prints a warning and proceeds with the linked build,
contradicting the claim that bundled + cipher-variant is a fatal
pre-flight configuration error. -/
theorem bundled_sqlcipher_no_abort_counterexample :
    mainSelect exBundledCipherCfg = Except.ok (BuildMode.linked, [sqlcipherWarning]) :=
  rfl

/-- C4 (amended): bundled + loadable-extension (without the cipher
variant) aborts with a fatal configuration error before any resolver or
generator work; bundled + cipher-variant is not fatal — `main` emits a
warning and falls back to the linked build. -/
theorem mainSelect_conflict_behavior (c : Config) :
    (c.sqlcipher = false → c.bundled = true → c.loadable_ext = true →
      mainSelect c = Except.error "Building a loadable extension bundled is not supported")
    ∧ (c.sqlcipher = true → c.bundled = true →
      mainSelect c = Except.ok (BuildMode.linked, [sqlcipherWarning])) := by
  constructor
  · intro h1 h2 h3
    simp [mainSelect, h1, h2, h3]
  · intro h1 h2
    simp [mainSelect, h1, h2]

/-- C4 witness: the amended statement evaluated on the two flag
combinations. -/
theorem mainSelect_conflict_behavior_witness :
    mainSelect exBundledLoadableCfg =
      Except.error "Building a loadable extension bundled is not supported"
    ∧ mainSelect exBundledCipherCfg = Except.ok (BuildMode.linked, [sqlcipherWarning]) :=
  ⟨(mainSelect_conflict_behavior exBundledLoadableCfg).1 rfl rfl rfl,
   (mainSelect_conflict_behavior exBundledCipherCfg).2 rfl rfl⟩

/-! C5 and C6: resolver scenarios. -/

def exNoEnv : ResolveEnv := { libDir := none, staticVar := none }

def exLoadableCfg : Config :=
  { sqlcipher := false, bundled := false, loadable_ext := true
    buildtime_bindgen := true, targetWindows := false, vcpkgMsvc := false }

def exLinkedCfg : Config :=
  { sqlcipher := false, bundled := false, loadable_ext := false
    buildtime_bindgen := true, targetWindows := false, vcpkgMsvc := false }

/-- C5 counterexample: in the scenario {loadable-extension, no environment
variables, all probers fail}, `build_loadable_extension::find_sqlite`
returns the wrapper stub but emits no `cargo:rustc-link-lib` directive at
all — contradicting the claimed `link-lib dynamic sqlite3` directive. -/
theorem loadable_exhausted_counterexample :
    (build_loadable_find_sqlite exLoadableCfg exNoEnv none ProbeResult.err).1 =
      HeaderLocation.Wrapper
    ∧ ((build_loadable_find_sqlite exLoadableCfg exNoEnv none ProbeResult.err).2.filter
        (fun d => strStartsWith d "cargo:rustc-link-lib=")) = [] := by
  constructor
  · rfl
  · decide

/-- C5 (amended): with no library-directory environment variable, static
override unset, and every prober failing, the linked resolver
(`build_linked::find_sqlite`) returns the wrapper stub and emits exactly
one bare link directive `cargo:rustc-link-lib=dylib=sqlite3`; the
loadable-extension resolver returns the wrapper stub but emits no link
directive. -/
theorem exhausted_fallback_link_directive (c : Config) (env : ResolveEnv)
    (hsq : c.sqlcipher = false) (hlib : env.libDir = none)
    (hstatic : env.staticVar = none) :
    (build_linked_find_sqlite c env ProbeResult.err none ProbeResult.err).1 =
      HeaderLocation.Wrapper
    ∧ (build_linked_find_sqlite c env ProbeResult.err none ProbeResult.err).2.filter
        (fun d => strStartsWith d "cargo:rustc-link-lib=") =
        ["cargo:rustc-link-lib=dylib=sqlite3"]
    ∧ (build_loadable_find_sqlite c env none ProbeResult.err).1 = HeaderLocation.Wrapper
    ∧ (build_loadable_find_sqlite c env none ProbeResult.err).2.filter
        (fun d => strStartsWith d "cargo:rustc-link-lib=") = [] := by
  rcases c with ⟨sq, b, le, bb, tw, vm⟩
  rcases env with ⟨ld, sv⟩
  cases sq with
  | true => exact Bool.noConfusion hsq
  | false =>
    cases ld with
    | some d => exact Option.noConfusion hlib
    | none =>
      cases sv with
      | some v => exact Option.noConfusion hstatic
      | none =>
        cases b <;> cases le <;> cases bb <;> cases tw <;> cases vm <;> decide

/-- C5 witness: the amended statement evaluated on concrete linked and
loadable configurations. -/
theorem exhausted_fallback_link_directive_witness :
    (build_linked_find_sqlite exLinkedCfg exNoEnv ProbeResult.err none ProbeResult.err).1 =
      HeaderLocation.Wrapper
    ∧ (build_linked_find_sqlite exLinkedCfg exNoEnv ProbeResult.err none ProbeResult.err).2.filter
        (fun d => strStartsWith d "cargo:rustc-link-lib=") =
        ["cargo:rustc-link-lib=dylib=sqlite3"]
    ∧ (build_loadable_find_sqlite exLinkedCfg exNoEnv none ProbeResult.err).1 =
      HeaderLocation.Wrapper
    ∧ (build_loadable_find_sqlite exLinkedCfg exNoEnv none ProbeResult.err).2.filter
        (fun d => strStartsWith d "cargo:rustc-link-lib=") = [] :=
  exhausted_fallback_link_directive exLinkedCfg exNoEnv rfl rfl rfl

def exCipherCfg : Config :=
  { sqlcipher := true, bundled := false, loadable_ext := false
    buildtime_bindgen := true, targetWindows := false, vcpkgMsvc := false }

def exCipherEnv : ResolveEnv := { libDir := some "/opt/sqlcipher", staticVar := none }

/-- C6: whenever `<PREFIX>_LIB_DIR` is set, both resolvers return
`FromEnvironment` regardless of the directory-scoped registry prober's
outcome; and when that prober (which only the linked resolver runs) fails,
the linked resolver emits the bare link directive for the link library
plus a library search-path directive for that directory. -/
theorem lib_dir_overrides (c : Config) (env : ResolveEnv) (dirProbe : ProbeResult)
    (vcpkgRes : Option (List String)) (sysProbe : ProbeResult) (dir : String)
    (hdir : env.libDir = some dir) :
    (build_linked_find_sqlite c env dirProbe vcpkgRes sysProbe).1 =
      HeaderLocation.FromEnvironment
    ∧ (build_loadable_find_sqlite c env vcpkgRes sysProbe).1 =
      HeaderLocation.FromEnvironment
    ∧ (dirProbe = ProbeResult.err →
        (build_linked_find_sqlite c env dirProbe vcpkgRes sysProbe).2 =
          rerunDirectives c ++
          ["cargo:rustc-link-lib=" ++ find_link_mode env ++ "=" ++ link_lib c,
           "cargo:rustc-link-search=" ++ dir]) := by
  refine ⟨?_, ?_, ?_⟩
  · unfold build_linked_find_sqlite
    rw [hdir]
    cases dirProbe <;> rfl
  · unfold build_loadable_find_sqlite
    rw [hdir]
  · intro hp
    subst hp
    unfold build_linked_find_sqlite
    rw [hdir]

/-- C6 witness: the cipher-variant scenario `SQLCIPHER_LIB_DIR =
/opt/sqlcipher` with a failing scoped prober. -/
theorem lib_dir_overrides_witness :
    (build_linked_find_sqlite exCipherCfg exCipherEnv ProbeResult.err none ProbeResult.err).1 =
      HeaderLocation.FromEnvironment
    ∧ (build_loadable_find_sqlite exCipherCfg exCipherEnv none ProbeResult.err).1 =
      HeaderLocation.FromEnvironment
    ∧ (build_linked_find_sqlite exCipherCfg exCipherEnv ProbeResult.err none ProbeResult.err).2 =
        rerunDirectives exCipherCfg ++
        ["cargo:rustc-link-lib=" ++ find_link_mode exCipherEnv ++ "=" ++ link_lib exCipherCfg,
         "cargo:rustc-link-search=" ++ "/opt/sqlcipher"] := by
  have h := lib_dir_overrides exCipherCfg exCipherEnv ProbeResult.err none ProbeResult.err
    "/opt/sqlcipher" rfl
  exact ⟨h.1, h.2.1, h.2.2 rfl⟩

/-! C7: variadic specialization. -/

theorem varArgTypes_dbConfig : varArgTypes "sqlite3_db_config" = [none, some "&mut i32"] :=
  rfl

theorem varArgTypes_default (n : String) (h : n ≠ "sqlite3_db_config") :
    varArgTypes n = [none] := by
  unfold varArgTypes
  rw [if_neg h]

theorem addVarargs_single (l : List BareFnArg) (lastArg : BareFnArg)
    (h : l.getLast? = some lastArg) :
    addVarargs l 0 [none] =
      Except.ok (l ++ [{ name := some "vararg1", ty := lastArg.ty }]) := by
  unfold addVarargs
  rw [h]
  rfl

theorem addVarargs_dbConfig (l : List BareFnArg) (lastArg : BareFnArg)
    (h : l.getLast? = some lastArg) :
    addVarargs l 0 [none, some "&mut i32"] =
      Except.ok (l ++ [{ name := some "vararg1", ty := lastArg.ty },
                       { name := some "vararg2", ty := "&mut i32" }]) := by
  unfold addVarargs
  rw [h]
  unfold addVarargs
  rw [List.getLast?_concat]
  unfold addVarargs
  rw [List.append_assoc]
  rfl

/-- C7: a variadic field whose constructed name is `sqlite3_db_config`
(the registered two-parameter specialization) yields a wrapper with
exactly two extra trailing parameters — `vararg1` with the last declared
parameter's type and `vararg2 : &mut i32` — both forwarded positionally
after the original arguments; a variadic field with no registered
specialization yields exactly one generic trailing parameter `vararg1`
(typed like the last declared parameter), forwarded alone after the
original arguments. -/
theorem variadic_wrapper_specialization (fieldIdent : String) (f : FieldDescriptor)
    (w : Wrapper) (lastArg : BareFnArg)
    (hvar : f.variadic = true)
    (hlast : f.inputs.getLast? = some lastArg)
    (hgen : generate_wrapper fieldIdent f ("sqlite3_" ++ fieldIdent) = Except.ok w) :
    ("sqlite3_" ++ fieldIdent = "sqlite3_db_config" →
      w.inputs = f.inputs ++ [{ name := some "vararg1", ty := lastArg.ty },
                              { name := some "vararg2", ty := "&mut i32" }]
      ∧ w.callArgs =
          f.inputs.map (fun a => a.name.getD "") ++ ["vararg1", "vararg2"])
    ∧ ("sqlite3_" ++ fieldIdent ≠ "sqlite3_db_config" →
      w.inputs = f.inputs ++ [{ name := some "vararg1", ty := lastArg.ty }]
      ∧ w.callArgs = f.inputs.map (fun a => a.name.getD "") ++ ["vararg1"]) := by
  rw [generate_wrapper, if_pos hvar] at hgen
  constructor
  · intro hname
    rw [hname, varArgTypes_dbConfig, addVarargs_dbConfig f.inputs lastArg hlast] at hgen
    have hw := assembleWrapper_ok fieldIdent "sqlite3_db_config" f.output _ w hgen
    subst hw
    refine ⟨rfl, ?_⟩
    simp
  · intro hname
    rw [varArgTypes_default _ hname, addVarargs_single f.inputs lastArg hlast] at hgen
    have hw := assembleWrapper_ok fieldIdent ("sqlite3_" ++ fieldIdent) f.output _ w hgen
    subst hw
    refine ⟨rfl, ?_⟩
    simp

def exDbConfigField : FieldDescriptor :=
  { ident := some "db_config"
    inputs := [{ name := some "arg1", ty := "*mut sqlite3" },
               { name := some "arg2", ty := "::std::os::raw::c_int" }]
    output := "::std::os::raw::c_int"
    variadic := true }

def exDbConfigWrapper : Wrapper :=
  { apiFnName := "sqlite3_db_config"
    inputs := [{ name := some "arg1", ty := "*mut sqlite3" },
               { name := some "arg2", ty := "::std::os::raw::c_int" },
               { name := some "vararg1", ty := "::std::os::raw::c_int" },
               { name := some "vararg2", ty := "&mut i32" }]
    output := "::std::os::raw::c_int"
    callArgs := ["arg1", "arg2", "vararg1", "vararg2"]
    dispatchField := "db_config"
    nullTableMsg := "sqlite3_api is null"
    nullFieldMsg := nullFieldMessage "db_config" }

def exLogField : FieldDescriptor :=
  { ident := some "log"
    inputs := [{ name := some "arg1", ty := "::std::os::raw::c_int" }]
    output := "()"
    variadic := true }

def exLogWrapper : Wrapper :=
  { apiFnName := "sqlite3_log"
    inputs := [{ name := some "arg1", ty := "::std::os::raw::c_int" },
               { name := some "vararg1", ty := "::std::os::raw::c_int" }]
    output := "()"
    callArgs := ["arg1", "vararg1"]
    dispatchField := "log"
    nullTableMsg := "sqlite3_api is null"
    nullFieldMsg := nullFieldMessage "log" }

/-- C7 witness: evaluation on the variadic `db_config` field (registered
specialization) and the variadic `log` field (no specialization). -/
theorem variadic_wrapper_specialization_witness :
    exDbConfigWrapper.inputs = exDbConfigField.inputs ++
        [{ name := some "vararg1", ty := "::std::os::raw::c_int" },
         { name := some "vararg2", ty := "&mut i32" }]
    ∧ exDbConfigWrapper.callArgs =
        exDbConfigField.inputs.map (fun a => a.name.getD "") ++ ["vararg1", "vararg2"]
    ∧ exLogWrapper.inputs =
        exLogField.inputs ++ [{ name := some "vararg1", ty := "::std::os::raw::c_int" }]
    ∧ exLogWrapper.callArgs =
        exLogField.inputs.map (fun a => a.name.getD "") ++ ["vararg1"] := by
  have h1 := (variadic_wrapper_specialization "db_config" exDbConfigField exDbConfigWrapper
    { name := some "arg2", ty := "::std::os::raw::c_int" } rfl rfl rfl).1 rfl
  have h2 := (variadic_wrapper_specialization "log" exLogField exLogWrapper
    { name := some "arg1", ty := "::std::os::raw::c_int" } rfl rfl rfl).2 (by decide)
  exact ⟨h1.1, h1.2, h2.1, h2.2⟩

/-! C8: the SQLITE_DETERMINISTIC compatibility shim. -/

/-- C8: the deterministic-function shim (value 2048) is appended to the
generated output exactly when the output does not already contain the
constant `pub const SQLITE_DETERMINISTIC`; when it is present, the output
is returned unchanged. -/
theorem deterministic_shim_iff (output : String) :
    (appendDeterministic output = output ++ deterministicShim ↔
      strContainsSubstr output "pub const SQLITE_DETERMINISTIC" = false)
    ∧ (strContainsSubstr output "pub const SQLITE_DETERMINISTIC" = true →
      appendDeterministic output = output) := by
  have hne : output ≠ output ++ deterministicShim := by
    intro he
    have hd := congrArg String.data he
    rw [String.data_append] at hd
    have hnil : deterministicShim.data = [] := List.self_eq_append_right.mp hd
    exact absurd hnil (by decide)
  constructor
  · constructor
    · intro he
      cases hb : strContainsSubstr output "pub const SQLITE_DETERMINISTIC" with
      | false => rfl
      | true =>
        rw [appendDeterministic, if_pos hb] at he
        exact absurd he hne
    · intro hf
      rw [appendDeterministic, if_neg]
      rw [hf]
      simp
  · intro ht
    rw [appendDeterministic, if_pos ht]

/-- C8 witness: the shim is appended to output lacking the constant and
not appended to output containing it. -/
theorem deterministic_shim_iff_witness :
    appendDeterministic "pub const SQLITE_OK: i32 = 0;" =
      "pub const SQLITE_OK: i32 = 0;" ++ deterministicShim
    ∧ appendDeterministic "pub const SQLITE_DETERMINISTIC: i32 = 2048;" =
      "pub const SQLITE_DETERMINISTIC: i32 = 2048;" :=
  ⟨(deterministic_shim_iff "pub const SQLITE_OK: i32 = 0;").1.mpr (by decide),
   (deterministic_shim_iff "pub const SQLITE_DETERMINISTIC: i32 = 2048;").2 (by decide)⟩

/-! C9: the bindgen integer-typing callback. -/

/-- C9: for every 64-bit value seen by `SqliteTypeChooser::int_macro`, the
callback picks the 32-bit signed integer kind exactly when the value lies
within the inclusive `i32` range, and picks no kind otherwise. -/
theorem int_macro_i32_range (v : Int)
    (_h : -9223372036854775808 ≤ v ∧ v ≤ 9223372036854775807) :
    ((-2147483648 ≤ v ∧ v ≤ 2147483647) → int_macro v = some IntKind.I32)
    ∧ (¬(-2147483648 ≤ v ∧ v ≤ 2147483647) → int_macro v = none) := by
  constructor
  · intro h32
    rw [ int_macro, if_pos h32]
  · intro h32
    rw [ int_macro, if_neg h32]

/-- C9 witness: evaluation at 2048 (fits `i32`) and 4294967296 (does
not). -/
theorem int_macro_i32_range_witness :
    int_macro 2048 = some IntKind.I32 ∧ int_macro 4294967296 = none :=
  ⟨(int_macro_i32_range 2048 (by decide)).1 (by decide),
   (int_macro_i32_range 4294967296 (by decide)).2 (by decide)⟩

/-! C10: the prebuilt-bindings fallback. -/

/-- C10: when build-time binding generation is disabled, the copied
fallback binding file is independent of the resolved header location and
is the last entry of the prebuilt-paths list — the highest
minimum-supported-version entry enabled by the configuration — suffixed
with `-ext` exactly in loadable-extension mode, plus `.rs`. -/
theorem prebuilt_fallback_selection (c : BindgenConfig) (h1 h2 : HeaderLocation) :
    prebuilt_write_src c h1 = prebuilt_write_src c h2
    ∧ prebuilt_write_src c h1 =
        (if c.min_3_26_0 then "bindgen-bindings/bindgen_3.26.0"
         else if c.min_3_20_0 then "bindgen-bindings/bindgen_3.20.0"
         else if c.min_3_13_0 then "bindgen-bindings/bindgen_3.13.0"
         else if c.min_3_7_16 then "bindgen-bindings/bindgen_3.7.16"
         else if c.min_3_7_7 then "bindgen-bindings/bindgen_3.7.7"
         else if c.min_3_6_23 then "bindgen-bindings/bindgen_3.6.23"
         else "bindgen-bindings/bindgen_3.6.8")
        ++ prebuilt_bindgen_ext c ++ ".rs"
    ∧ prebuilt_write_src c h1 =
        (PREBUILT_BINDGEN_PATHS c).getLast?.getD "" ++ prebuilt_bindgen_ext c ++ ".rs" := by
  refine ⟨rfl, ?_, ?_⟩
  · rcases c with ⟨m1, m2, m3, m4, m5, m6, le⟩
    cases m1 <;> cases m2 <;> cases m3 <;> cases m4 <;> cases m5 <;> cases m6 <;> rfl
  · rcases c with ⟨m1, m2, m3, m4, m5, m6, le⟩
    cases m1 <;> cases m2 <;> cases m3 <;> cases m4 <;> cases m5 <;> cases m6 <;> rfl
